import Mathlib

/-!
Verification of the HSAMI+ hydrological kernel (hydrologie/hsamiplus).

This file gives a shallow embedding, over exact rationals (and over the
reals for the one function that uses transcendental operations), of the
parts of the Python source that the checked properties are about:

* hsami_interception.py, function pluie_neige (rain/snow phase split);
* hsami_ruissellement_surface.py (surface runoff split);
* hsami2_noyau.py, function bilan_sorties (discharge outputs);
* hsami_glace.py (reservoir ice: ratio updates, shelf-ice deposit/release);
* hsami2.py (project preprocessing and initial-state construction);
* hsami_ecoulement_vertical.py, function ecoulement_3couches and scs_cn;
* hsami_hydrogramme.py (unit hydrograph).

Machine floating-point numbers are embedded as exact rationals; the
floating-point powers 10**param and (sol/sol_max)**c are embedded with
integer exponents (the only uses needed by the statements below), and the
two calls that are inherently real (a bounded 1-D optimiser inside the
Green-Ampt solver, exp(-k/nb_pas) in the Dingman base-flow law) are taken
as explicit arguments, documented at their binder.  NumPy in-place
mutation of the shared state dictionary is embedded as explicit record
update, and a Python ValueError as an Except value.
-/

namespace HsamiPlus

/-- Enumeration of the infiltration module tags accepted by the source
(modules['infiltration']). -/
inductive ModuleInfiltration
  | hsami
  | green_ampt
  | scs_cn
deriving DecidableEq

/-- Enumeration of the soil-model tags (modules['sol']): 'hsami' or
'3couches'. -/
inductive ModuleSol
  | hsami
  | trois_couches
deriving DecidableEq

/-- Enumeration of the base-flow law tags (modules['qbase']). -/
inductive ModuleQbase
  | hsami
  | dingman
deriving DecidableEq

/-- Values of modules['glace_reservoir']: the two recognised strings, the
integer 0, and a representative of every other (invalid) value, which the
driver rejects with a ValueError (hsami2_noyau.py lines 504-512). -/
inductive GlaceReservoirOpt
  | zero
  | stefan
  | mylake
  | autre
deriving DecidableEq

/-! ## pluie_neige (hsami_interception.py, lines 2234-2262) -/

/-- Scalar branch of pluie_neige (isinstance(prec, float)): the phase
factor alpha = ((tmin+tmax)/2 + 2)/4 is applied without clamping; returns
(pluie, neige). -/
def pluie_neige_scalaire (tmin tmax prec : ℚ) : ℚ × ℚ :=
  let tmoy := (tmin + tmax) / 2
  let alpha := (tmoy + 2) / 4
  (alpha * prec, (1 - alpha) * prec)

/-- Array branch of pluie_neige, per component: all rain above +2, all
snow below -2, linear alpha in between (the np.where masks partition the
index set exactly this way); returns (pluie, neige). -/
def pluie_neige_vectoriel (tmin tmax prec : ℚ) : ℚ × ℚ :=
  let tmoy := (tmin + tmax) / 2
  if 2 < tmoy then (prec, 0)
  else if tmoy < -2 then (0, prec)
  else
    let alpha := (tmoy + 2) / 4
    (alpha * prec, (1 - alpha) * prec)

/-! ## hsami_ruissellement_surface.py -/

/-- Surface runoff split (hsami_ruissellement_surface.py).  Inputs: steps
per day, the 50-entry parameter vector (as a function on indices), the
state fields the function reads (etat['gel'], etat['sol'][0]), the water
available at the surface, and the module selection.  Returns
(ruissellement_surface, infiltration). -/
def hsami_ruissellement_surface (nb_pas : ℚ) (param : ℕ → ℚ) (gel sol0 : ℚ)
    (eau_surface : ℚ) (minf : ModuleInfiltration) (msol : ModuleSol) : ℚ × ℚ :=
  match minf with
  | .green_ampt => (0, eau_surface)
  | .scs_cn => (0, eau_surface)
  | .hsami =>
    let effet_gel := param 8
    let effet_sol := param 9
    let seuil_min := param 10
    let sol_max :=
      match msol with
      | .hsami => param 12
      | .trois_couches => param 44 * param 39
    let seuil := effet_sol / nb_pas * (1 - sol0 / sol_max) - effet_gel * gel
    let seuil := max seuil (seuil_min / nb_pas)
    let ruissellement_surface :=
      if seuil ≤ eau_surface then eau_surface - seuil / 2
      else eau_surface ^ 2 / (2 * seuil)
    (ruissellement_surface, eau_surface - ruissellement_surface)

/-! ## bilan_sorties (hsami2_noyau.py, lines 881-894) -/

/-- Discharge outputs of one driver step. -/
structure SortiesDebits where
  Qtotal : ℚ
  Qbase : ℚ
  Qinter : ℚ
  Qsurf : ℚ
  Qreservoir : ℚ
  Qglace : ℚ
  Qmh : ℚ
deriving DecidableEq

/-- Construction of the discharge outputs in bilan_sorties
(hsami2_noyau.py lines 881-894): q is the 6-entry discharge vector
produced by ruissellement_ecoulement, ratio_qbase the state's wetland
base-flow fraction.  s['Qtotal'] = np.sum(q); s['Qbase'] = q[0] * (1 -
ratio_qbase); s['Qmh'] = q[0] * ratio_qbase + q[5] when mhumide == 1 and
the scalar 0.0 otherwise. -/
def bilan_sorties_debits (m_mhumide : Bool) (q : Fin 6 → ℚ)
    (ratio_qbase : ℚ) : SortiesDebits :=
  { Qtotal := ∑ i, q i
    Qbase := q 0 * (1 - ratio_qbase)
    Qinter := q 1
    Qsurf := q 2
    Qreservoir := q 3
    Qglace := q 4
    Qmh := if m_mhumide then q 0 * ratio_qbase + q 5 else 0 }

/-! ## Project preprocessing (hsami2.py lines 83-94 and 233-273,
hsami2_noyau.py lines 298-306)

The orchestrator hsami2 writes into the caller's project value in three
places: modules_par_defaut fills every absent key of projet['modules']
with its default in place (hsami2.py lines 94 and 233-273);
projet['superficie'] gets 0 appended in place when it has a single entry
(lines 83-85); and each call of hsami2_noyau swaps the first two entries
of the current meteorology row in place (the row object is shared with
projet['meteo']) when tmin > tmax (hsami2_noyau.py lines 298-306).
physio is passed to the driver through copy(physio), so the driver's
latitude conversion rebinds a key of the copy and the caller's physio is
untouched; no other statement writes into the project. -/

/-- projet['modules'] as hsami2 receives it: each of the ten keys may be
absent (None stands for a missing dictionary key).  The string-valued
keys carry their tag; reservoir and mhumide are integers;
glace_reservoir takes the values of GlaceReservoirOpt. -/
structure ModulesProjet where
  etp_bassin : Option String
  etp_reservoir : Option String
  een : Option String
  infiltration : Option String
  qbase : Option String
  sol : Option String
  radiation : Option String
  reservoir : Option ℤ
  mhumide : Option ℤ
  glace_reservoir : Option GlaceReservoirOpt
deriving DecidableEq

/-- set_default_module (hsami2.py lines 233-247): write the default value
under the key when the key is absent, in place. -/
def set_default_module {α : Type} (valeur : Option α) (defaut : α) : Option α :=
  match valeur with
  | none => some defaut
  | some v => some v

/-- modules_par_defaut (hsami2.py lines 250-273): fill every absent
module key of the caller's projet['modules'] with its default, in
place. -/
def modules_par_defaut (m : ModulesProjet) : ModulesProjet :=
  { etp_bassin := set_default_module m.etp_bassin "hsami"
    etp_reservoir := set_default_module m.etp_reservoir "hsami"
    een := set_default_module m.een "hsami"
    infiltration := set_default_module m.infiltration "hsami"
    qbase := set_default_module m.qbase "hsami"
    sol := set_default_module m.sol "hsami"
    radiation := set_default_module m.radiation "hsami"
    reservoir := set_default_module m.reservoir 0
    mhumide := set_default_module m.mhumide 0
    glace_reservoir := set_default_module m.glace_reservoir .zero }

/-- A modules record with every key present, the condition under which
modules_par_defaut writes nothing. -/
def modules_complets (m : ModulesProjet) : Prop :=
  m.etp_bassin.isSome = true ∧ m.etp_reservoir.isSome = true
    ∧ m.een.isSome = true ∧ m.infiltration.isSome = true
    ∧ m.qbase.isSome = true ∧ m.sol.isSome = true
    ∧ m.radiation.isSome = true ∧ m.reservoir.isSome = true
    ∧ m.mhumide.isSome = true ∧ m.glace_reservoir.isSome = true

/-- In-place preprocessing of one meteorology row (hsami2_noyau.py lines
298-306): swap the first two entries when row[0] > row[1]. -/
def pretraitement_meteo (ligne : List ℚ) : List ℚ :=
  match ligne with
  | t0 :: t1 :: reste => if t1 < t0 then t1 :: t0 :: reste else t0 :: t1 :: reste
  | autre => autre

/-- In-place normalisation of projet['superficie'] (hsami2.py lines
83-85): append 0 when the list has one element. -/
def superficie_entree (superficie : List ℚ) : List ℚ :=
  if superficie.length = 1 then superficie ++ [0] else superficie

/-- The mutable project fields: the ones the immutability claim names
(superficie, the two meteorology series, physio) together with the
modules record, which the orchestrator also writes into. -/
structure ProjetChamps where
  superficie : List ℚ
  meteo_bassin : List (List ℚ)
  meteo_reservoir : List (List ℚ)
  physio_latitude : ℚ
  modules : ModulesProjet
deriving DecidableEq

/-- Net effect of a full hsami2 run on the caller's project value: the
in-place default fill of the modules record (hsami2.py line 94), the
superficie normalisation, and the in-place tmin/tmax swap applied to
every meteorology row (the warm-up and the main loop pass every row to
the driver at least once; the swap is idempotent).  The latitude is
unchanged because the driver receives a copy of physio; no other
statement of the package writes into the project. -/
def projet_apres_hsami2 (p : ProjetChamps) : ProjetChamps :=
  { superficie := superficie_entree p.superficie
    meteo_bassin := p.meteo_bassin.map pretraitement_meteo
    meteo_reservoir := p.meteo_reservoir.map pretraitement_meteo
    physio_latitude := p.physio_latitude
    modules := modules_par_defaut p.modules }

/-- A meteorology row with its first two entries already ordered
(tmin ≤ tmax), the condition under which the driver's preprocessing
leaves it unchanged.  Rows with fewer than two entries are also left
unchanged. -/
def meteo_ordonnee : List ℚ → Prop
  | t0 :: t1 :: _ => t0 ≤ t1
  | _ => True

/-! ## hsami_glace.py

The outer function (lines 38-129) is embedded in full.  The inner models
Stefan and MyLake compute the new reservoir surface, the new (rounded,
integer) shore-ice area and the new floating-ice thickness in metres;
the thickness involves a real square root (Stefan line 187, MyLake line
315), so the embedding takes the inner model's five outputs as a record
and quantifies over them: every theorem below therefore holds for the
actual Stefan and MyLake outputs.  The shore-ice areas are natural
numbers, as in the program after np.round and max(0, ...); indices into
eeg stay below its length 5000 for every project, so eeg is embedded as
a total function on ℕ. -/

/-- Density of normal ice (hsami_glace.py line 36). -/
def densite_glace : ℚ := 916 / 1000

/-- Outputs of the inner ice model (Stefan lines 218-225, MyLake lines
387-392) that the outer function reads: the previous and new shore-ice
areas superficie_glace[0], superficie_glace[1] (integer km²), the
previous and new reservoir surfaces superficie_reservoir[0],
superficie_reservoir[1] (km²), and the new floating-ice thickness (m)
that the inner model stored in etats['reservoir_epaisseur_glace']. -/
structure ResultatInterne where
  superficie_glace_0 : ℕ
  superficie_glace_1 : ℕ
  superficie_reservoir_0 : ℚ
  superficie_reservoir_1 : ℚ
  epaisseur_glace : ℚ

/-- The state fields that hsami_glace reads or writes.  eeg holds the
per-km² shelf-ice water equivalent (cm). -/
structure EtatGlace where
  eeg : ℕ → ℚ
  reservoir_epaisseur_glace : ℚ
  reservoir_superficie_glace : ℚ
  ratio_reservoir : ℚ
  ratio_bassin : ℚ
  ratio_fixe : ℚ
  neige_au_sol : ℚ

/-- The three branches of hsami_glace: modules['reservoir'] == 0 (lines
95-103), reservoir == 1 without meteo/physio/param (lines 85-93, fixed
reservoir surface), and reservoir == 1 with full inputs (lines 40-83,
inner Stefan or MyLake model, abstracted by its outputs). -/
inductive BrancheGlace
  | sans_reservoir
  | surface_fixe
  | interne (r : ResultatInterne)

/-- Shared tail of hsami_glace (lines 105-129): floating-ice deposit when
the shore-ice area grew (Python slice eeg[sg0+1 : sg1] is assigned, then
glace_vers_reservoir is minus the sum over the same slice), release when
it shrank (the slice eeg[sg1+1 : sg0] is summed into
glace_vers_reservoir and zeroed), and the snow exchange
bassin_vers_reservoir = delta_reservoir * neige_au_sol.  Returns
(glace_vers_reservoir, bassin_vers_reservoir, etats). -/
def depot_restitution (etats : EtatGlace) (sg0 sg1 : ℕ)
    (delta_reservoir : ℚ) : ℚ × ℚ × EtatGlace :=
  if sg0 < sg1 then
    let ind1 := sg0 + 1
    let ind2 := sg1
    let valeur := etats.reservoir_epaisseur_glace * densite_glace
    let eeg1 : ℕ → ℚ := fun i => if ind1 ≤ i ∧ i < ind2 then valeur else etats.eeg i
    let glace_vers_reservoir := -(∑ i ∈ Finset.Ico ind1 ind2, eeg1 i)
    (glace_vers_reservoir, delta_reservoir * etats.neige_au_sol,
      { etats with eeg := eeg1 })
  else if sg1 < sg0 then
    let ind1 := sg1 + 1
    let ind2 := sg0
    let glace_vers_reservoir := ∑ i ∈ Finset.Ico ind1 ind2, etats.eeg i
    let eeg1 : ℕ → ℚ := fun i => if ind1 ≤ i ∧ i < ind2 then 0 else etats.eeg i
    (glace_vers_reservoir, delta_reservoir * etats.neige_au_sol,
      { etats with eeg := eeg1 })
  else
    (0, delta_reservoir * etats.neige_au_sol, etats)

/-- hsami_glace (hsami_glace.py lines 38-129).  superficie = (whole
watershed, mean reservoir) in km².  Returns (glace_vers_reservoir,
bassin_vers_reservoir, etats). -/
def hsami_glace (superficie : ℚ × ℚ) (etats : EtatGlace) :
    BrancheGlace → ℚ × ℚ × EtatGlace
  | .interne r =>
    let etats1 : EtatGlace :=
      { etats with
        reservoir_epaisseur_glace := r.epaisseur_glace * 100
        reservoir_superficie_glace := (r.superficie_glace_1 : ℚ)
        ratio_reservoir := r.superficie_reservoir_1 / superficie.1
        ratio_bassin := 1 - r.superficie_reservoir_1 / superficie.1
        ratio_fixe := 1 - superficie.2 / superficie.1 }
    let delta_reservoir :=
      (r.superficie_reservoir_1 - r.superficie_reservoir_0) / superficie.1
    depot_restitution etats1 r.superficie_glace_0 r.superficie_glace_1 delta_reservoir
  | .surface_fixe =>
    let etats1 : EtatGlace :=
      { etats with
        reservoir_epaisseur_glace := 0
        reservoir_superficie_glace := 0
        ratio_reservoir := superficie.2 / superficie.1
        ratio_bassin := 1 - superficie.2 / superficie.1
        ratio_fixe := 1 - superficie.2 / superficie.1 }
    (0, 0 * etats1.neige_au_sol, etats1)
  | .sans_reservoir =>
    let etats1 : EtatGlace :=
      { etats with
        reservoir_epaisseur_glace := 0
        reservoir_superficie_glace := 0
        ratio_reservoir := 0
        ratio_bassin := 1
        ratio_fixe := 1 }
    (0, 0 * etats1.neige_au_sol, etats1)

/-! ## Driver dispatch to hsami_glace and configuration validation
(hsami2_noyau.py lines 484-516, hsami2.py lines 102-177)

An in-place ValueError is embedded as an Except error that carries the
state as it stands when the exception propagates, so that atomicity (no
state field modified) is the statement that the carried state equals the
input state.  Before the dispatch the driver only reads the state (the
balance snapshots, lines 330-341 and 484-487) apart from the guard at
lines 327-328, which replaces an empty eeg array by the scalar 0 and
never fires on schema-conforming states (the orchestrator allocates eeg
as np.zeros(5000)). -/

/-- Dispatch of the ice step inside etp_glace_interception
(hsami2_noyau.py lines 489-512) combined with the two validations: the
invalid-option ValueError of the driver (lines 508-512) and the
mylake-needs-banded-snow ValueError inside hsami_glace (line 69).
niveau_present embeds the two nested niveau checks of lines 490-502;
een_bande holds when modules['een'] is 'mdj' or 'alt'. -/
def dispatch_glace (g : GlaceReservoirOpt) (reservoir niveau_present een_bande : Bool)
    (interne : ResultatInterne) (superficie : ℚ × ℚ) (etat : EtatGlace) :
    Except (String × EtatGlace) (ℚ × ℚ × EtatGlace) :=
  match g with
  | .stefan =>
    if niveau_present then
      if reservoir then .ok (hsami_glace superficie etat (.interne interne))
      else .ok (hsami_glace superficie etat .sans_reservoir)
    else
      .ok (hsami_glace superficie etat
        (if reservoir then .surface_fixe else .sans_reservoir))
  | .mylake =>
    if niveau_present then
      if reservoir then
        if een_bande then .ok (hsami_glace superficie etat (.interne interne))
        else
          .error ("Le module mylake pour la glace de reservoir doit etre utilise avec le module mdj ou alt pour la neige", etat)
      else .ok (hsami_glace superficie etat .sans_reservoir)
    else
      .ok (hsami_glace superficie etat
        (if reservoir then .surface_fixe else .sans_reservoir))
  | .zero =>
    .ok (hsami_glace superficie etat
      (if reservoir then .surface_fixe else .sans_reservoir))
  | .autre =>
    .error ("L option specifiee pour la modelisation de la glace de reservoir est invalide", etat)

/-- The scalar fields of the initial state record built by hsami2
(hsami2.py lines 102-177). -/
structure EtatInitial where
  neige_au_sol : ℚ
  fonte : ℚ
  nas_tot : ℚ
  fonte_tot : ℚ
  derniere_neige : ℚ
  gel : ℚ
  nappe : ℚ
  reserve : ℚ
  sol : List ℚ
  mh_surf : ℚ
  mh_vol : ℚ
  ratio_MH : ℚ
  mhumide : ℚ
  ratio_qbase : ℚ
  cumdegGel : ℚ
  obj_gel : ℚ
  dernier_gel : ℚ
  reservoir_epaisseur_glace : ℚ
  reservoir_energie_glace : ℚ
  reservoir_superficie : ℚ
  reservoir_superficie_glace : ℚ
  reservoir_superficie_ref : ℚ
  ratio_bassin : ℚ
  ratio_reservoir : ℚ
  ratio_fixe : ℚ

/-- Construction of the initial state by hsami2 (hsami2.py lines
102-177), with its fatal wetland check: when modules['mhumide'] == 1 and
physio['samax'] == 0 a ValueError propagates out of hsami2 before any
simulation step runs, and no state record escapes (the record under
construction is local to hsami2).  The one-layer soil is initialised to
[param[11]] (the source keeps a NaN in the unused second slot); the
three-layer soil to field capacity. -/
def hsami2_initialisation (msol : ModuleSol) (m_mhumide : Bool) (param : ℕ → ℚ)
    (samax : ℚ) (superficie : ℚ × ℚ) : Except String EtatInitial :=
  if m_mhumide = true ∧ samax = 0 then
    .error "La superficie maximale du milieu humide equivalent est egale a 0."
  else
    let mh_surf : ℚ := if m_mhumide then param 48 * samax * 100 else 1
    let mh_vol : ℚ := if m_mhumide then param 48 * (param 47 * samax * 100 * 10000) else 0
    let ratio_MH : ℚ := if m_mhumide then mh_surf / (superficie.1 * 100) else 0
    .ok
      { neige_au_sol := 0
        fonte := 0
        nas_tot := 0
        fonte_tot := 0
        derniere_neige := 0
        gel := 0
        nappe := param 13
        reserve := 0
        sol :=
          match msol with
          | .hsami => [param 11]
          | .trois_couches => [param 42 * param 39, param 43 * param 40]
        mh_surf := mh_surf
        mh_vol := mh_vol
        ratio_MH := ratio_MH
        mhumide := mh_vol * ratio_MH / (mh_surf * 100)
        ratio_qbase := 0
        cumdegGel := 0
        obj_gel := -200
        dernier_gel := 0
        reservoir_epaisseur_glace := 0
        reservoir_energie_glace := 0
        reservoir_superficie := superficie.2
        reservoir_superficie_glace := 0
        reservoir_superficie_ref := superficie.2
        ratio_bassin := 1
        ratio_reservoir := 0
        ratio_fixe := 1 }

/-! ## hsami_ecoulement_vertical.py, three-layer soil

ecoulement_3couches (lines 217-459) and scs_cn (lines 610-633) are
embedded in full over exact rationals.  Two numerical details are
parameters of the embedding: the saturated conductivities are 10**p with
integer exponents p24, p38 (the source allows real param[24], param[38]),
and the pore-size indices b are naturals so that the pore-
disconnectedness exponents c = 2b + 3 are natural (the source allows
real param[36], param[37]).  The Green-Ampt solver calls a bounded 1-D
optimiser (scipy fminbound) and a real power, so its result
(infiltration, ruissellement) is taken as the argument
green_ampt_resultat, used only in that branch; exp_dingman stands for
exp(-param[26]/nb_pas) in the Dingman base-flow law. -/

/-- The five-entry apport_vertical vector (a NumPy array of length 5 in
the driver): base, intermediate, surface, reservoir, ice. -/
structure Apport where
  a0 : ℚ
  a1 : ℚ
  a2 : ℚ
  a3 : ℚ
  a4 : ℚ
deriving DecidableEq

/-- scs_cn (hsami_ecoulement_vertical.py lines 610-633): returns
(infiltration, ruissellement). -/
def scs_cn (eau_surface cn : ℚ) : ℚ × ℚ :=
  let s := (25400 / cn - 254) / 10
  let potentiel := (eau_surface - 0.2 * s) ^ 2 / (eau_surface + 0.8 * s)
  let ruissellement := min potentiel eau_surface
  (eau_surface - ruissellement, ruissellement)

/-- The mutable column state of the percolation loop: the two soil
layers, the groundwater appended as a third layer (line 267-271), the
running apport[1] and the recharge accumulator. -/
structure Sol3 where
  sol0 : ℚ
  sol1 : ℚ
  sol2 : ℚ
  apport1 : ℚ
  recharge : ℚ

/-- One 1-hour sub-step of the percolation loop (hsami_ecoulement_
vertical.py lines 366-427): conductivities, potential gravity drainage,
split of layer-2 drainage into intermediate runoff, then the downward
pass i_s = 1, 0 with the sol_min and sol_max caps, the layer-2 surplus
sent to intermediate runoff, and the water movement. -/
def percolation_pas (ks0 ks1 solmax0 solmax1 solmax2 z0 z1 solmin0 solmin1 prs : ℚ)
    (c0 c1 : ℕ) (s : Sol3) : Sol3 :=
  let k0 := ks0 * (s.sol0 / solmax0) ^ c0
  let k1 := ks1 * (s.sol1 / solmax1) ^ c1
  let d0 := solmax0 * k0 * (1 / 24) / z0
  let d1 := solmax1 * k1 * (1 / 24) / z1
  let d1 := min (s.sol1 - solmin1) d1
  let apport1 := s.apport1 + d1 * prs
  let sol1 := s.sol1 - d1 * prs
  let d1 := d1 * (1 - prs)
  let d1 := min (sol1 - solmin1) d1
  let ecart_sol_max := solmax2 - s.sol2
  let surplus := max (d1 - ecart_sol_max) 0
  let apport1 := apport1 + surplus
  let sol1 := sol1 - surplus
  let d1 := min ecart_sol_max d1
  let sol1 := sol1 - d1
  let sol2 := s.sol2 + d1
  let recharge := s.recharge + d1
  let d0 := if s.sol0 < solmin0 then 0 else min (s.sol0 - solmin0) d0
  let d0 := min (solmax1 - sol1) d0
  ⟨s.sol0 - d0, sol1 + d0, sol2, apport1, recharge⟩

/-- The state fields read and written by the vertical-flow module. -/
structure EtatVertical where
  sol0 : ℚ
  sol1 : ℚ
  nappe : ℚ
  gel : ℚ
  neige_au_sol : ℚ
deriving DecidableEq

/-- Result of ecoulement_3couches: the apport vector, the new state, and
the updated etr[2] (evaporation) and etr[3] (pumping). -/
structure ResultatVertical where
  apport : Apport
  etat : EtatVertical
  etr2 : ℚ
  etr3 : ℚ
deriving DecidableEq

/-- ecoulement_3couches (hsami_ecoulement_vertical.py lines 217-459).
The offre/demande branch (lines 303-357), with the scs_cn branch's
apport[:] broadcast assignment of line 331: the scalar ruissellement is
written into every entry of the length-5 NumPy array apport.  Then the
hourly percolation loop (lines 363-427), the surface infiltration
bounded by the layer-1 headroom (lines 434-437), the base-flow law
(lines 442-450) and the state save (lines 453-457). -/
def ecoulement_3couches (nb_pas : ℕ) (param : ℕ → ℚ) (p24 p38 : ℤ) (b0 b1 : ℕ)
    (etat : EtatVertical) (offre demande : ℚ) (minf : ModuleInfiltration)
    (mqb : ModuleQbase) (ruissellement_surface : ℚ) (apport_vertical : Apport)
    (green_ampt_resultat : ℚ × ℚ) (exp_dingman : ℚ) : ResultatVertical :=
  let z0 := param 39
  let z1 := param 40
  let ks0 : ℚ := (10 : ℚ) ^ p24
  let ks1 : ℚ := (10 : ℚ) ^ p38
  let pfp := param 41
  let nappe_max := param 13
  let prs := param 14
  let taux_vidange_nappe := param 17 / (nb_pas : ℚ)
  let c0 := 2 * b0 + 3
  let c1 := 2 * b1 + 3
  let solmax0 := param 44 * z0
  let solmax1 := param 45 * z1
  let solmin0 := param 42 * z0
  let solmin1 := param 43 * z1
  let ecart_offre_demande := offre - demande
  let branche : ℚ × ℚ × ℚ × Apport × ℚ :=
    if 0 < ecart_offre_demande then
      let evapo := demande
      let offre1 := offre - demande
      match minf with
      | .green_ampt =>
        (evapo, 0, green_ampt_resultat.1,
          { apport_vertical with a2 := green_ampt_resultat.2 }, etat.sol0)
      | .hsami =>
        (evapo, 0, ecart_offre_demande,
          { apport_vertical with a2 := ruissellement_surface }, etat.sol0)
      | .scs_cn =>
        let r := (scs_cn offre1 (param 23)).2
        (evapo, 0, (scs_cn offre1 (param 23)).1, ⟨r, r, r, r, r⟩, etat.sol0)
    else
      let evapo := offre
      let apport1 :=
        if minf = .hsami then { apport_vertical with a2 := ruissellement_surface }
        else apport_vertical
      let limite_pompage := pfp * z0
      let pompage :=
        min (etat.sol0 - limite_pompage) (-etat.sol0 / solmax0 * ecart_offre_demande)
      (evapo, pompage, 0, apport1, etat.sol0 - pompage)
  let evapo := branche.1
  let pompage := branche.2.1
  let inf_potentielle := branche.2.2.1
  let apport := branche.2.2.2.1
  let sol0_initial := branche.2.2.2.2
  let pas_1h := 24 / nb_pas
  let colonne : Sol3 :=
    (percolation_pas ks0 ks1 solmax0 solmax1 nappe_max z0 z1 solmin0 solmin1 prs
      c0 c1)^[pas_1h] ⟨sol0_initial, etat.sol1, etat.nappe, apport.a1, 0⟩
  let ecart_sol_max := solmax0 - colonne.sol0
  let infiltration := min ecart_sol_max inf_potentielle
  let a2 := apport.a2 + inf_potentielle - infiltration
  let sol0 := colonne.sol0 + infiltration
  let base : ℚ × ℚ :=
    match mqb with
    | .hsami => (colonne.sol2 * taux_vidange_nappe,
        colonne.sol2 * (1 - taux_vidange_nappe))
    | .dingman =>
      let a := param 26 / (nb_pas : ℚ) * param 27 * colonne.sol2 * exp_dingman
      (a, colonne.sol2 - a)
  { apport := ⟨base.1, colonne.apport1, a2, apport.a3, apport.a4⟩
    etat := { etat with sol0 := sol0, sol1 := colonne.sol1, nappe := base.2 }
    etr2 := evapo
    etr3 := pompage }

/-! ## hsami_hydrogramme.py

The weights are t**(mode*forme) * exp(-forme/pas * t) for t = 1..n with
n = int(memoire * pas_temps_par_jour) (line 35-45), normalised by their
sum (line 46).  Real powers and the exponential force this embedding
into ℝ; the scalar-mode case is embedded, and each row of the list-mode
case is exactly this function of the row's mode and forme. -/

/-- Unnormalised hydrograph weight h(t) (hsami_hydrogramme.py line
45). -/
noncomputable def hydrogramme_poids (mode forme pas_temps_par_jour : ℝ)
    (t : ℕ) : ℝ :=
  (t : ℝ) ^ (mode * forme) * Real.exp (-forme / pas_temps_par_jour * (t : ℝ))

/-- Normalised unit hydrograph (hsami_hydrogramme.py line 46): the weight
at t divided by the sum of the weights over t = 1..n. -/
noncomputable def hsami_hydrogramme (mode forme pas_temps_par_jour : ℝ)
    (n : ℕ) (t : ℕ) : ℝ :=
  hydrogramme_poids mode forme pas_temps_par_jour t /
    ∑ j ∈ Finset.Icc 1 n, hydrogramme_poids mode forme pas_temps_par_jour j

/-! # Theorems -/

/-- C10: in pluie_neige, the two scalar-branch outputs always sum to the
precipitation exactly, but the phase factor alpha = ((tmin+tmax)/2+2)/4
is not clamped in the scalar branch: for mean temperature strictly above
+2 °C and positive precipitation the returned snow is negative and the
returned rain exceeds the precipitation, whereas the array branch clamps
to all rain above +2 °C and all snow below -2 °C. -/
theorem pluie_neige_phase (tmin tmax prec : ℚ) :
    (pluie_neige_scalaire tmin tmax prec).1
        + (pluie_neige_scalaire tmin tmax prec).2 = prec
    ∧ (2 < (tmin + tmax) / 2 → 0 < prec →
        (pluie_neige_scalaire tmin tmax prec).2 < 0
        ∧ prec < (pluie_neige_scalaire tmin tmax prec).1)
    ∧ (2 < (tmin + tmax) / 2 → pluie_neige_vectoriel tmin tmax prec = (prec, 0))
    ∧ ((tmin + tmax) / 2 < -2 → pluie_neige_vectoriel tmin tmax prec = (0, prec)) := by
  refine ⟨by simp only [pluie_neige_scalaire]; ring, ?_, ?_, ?_⟩
  · intro h hp
    constructor
    · have hneg : 1 - ((tmin + tmax) / 2 + 2) / 4 < 0 := by linarith
      simpa only [pluie_neige_scalaire] using mul_neg_of_neg_of_pos hneg hp
    · simp only [pluie_neige_scalaire]
      nlinarith
  · intro h
    simp only [pluie_neige_vectoriel, if_pos h]
  · intro h
    have h2 : ¬ 2 < (tmin + tmax) / 2 := by linarith
    simp only [pluie_neige_vectoriel, if_neg h2, if_pos h]

/-- Witness for C10 at tmin = 3, tmax = 4, prec = 1: mean temperature
3.5 °C, the scalar branch returns negative snow and rain above 1. -/
theorem pluie_neige_phase_temoin :
    (pluie_neige_scalaire 3 4 1).2 < 0 ∧ (1 : ℚ) < (pluie_neige_scalaire 3 4 1).1 :=
  (pluie_neige_phase 3 4 1).2.1 (by norm_num) (by norm_num)

/-- C9: for nonnegative surface water, every module selection, and a
positive minimal threshold param[10], hsami_ruissellement_surface splits
the surface water exactly (the two outputs sum to eau_surface), and the
green_ampt / scs_cn selections pass everything through as
(0, eau_surface).  The hypotheses mirror the claim; the positive
threshold is what keeps the source's division by seuil well defined. -/
theorem ruissellement_somme (nb_pas : ℚ) (param : ℕ → ℚ) (gel sol0 eau_surface : ℚ)
    (minf : ModuleInfiltration) (msol : ModuleSol)
    (_hes : 0 ≤ eau_surface) (_hseuil : 0 < param 10) :
    (hsami_ruissellement_surface nb_pas param gel sol0 eau_surface minf msol).1
        + (hsami_ruissellement_surface nb_pas param gel sol0 eau_surface minf msol).2
        = eau_surface
    ∧ ((minf = .green_ampt ∨ minf = .scs_cn) →
        hsami_ruissellement_surface nb_pas param gel sol0 eau_surface minf msol
          = (0, eau_surface)) := by
  cases minf with
  | hsami =>
    refine ⟨?_, by intro h; rcases h with h | h <;> exact absurd h (by simp)⟩
    simp only [hsami_ruissellement_surface]
    ring
  | green_ampt => exact ⟨by simp [hsami_ruissellement_surface], fun _ => rfl⟩
  | scs_cn => exact ⟨by simp [hsami_ruissellement_surface], fun _ => rfl⟩

/-- Witness for C9 with the hsami threshold branch: eau_surface = 3,
param[10] = 1, param[12] = 10, one step per day. -/
theorem ruissellement_somme_temoin :
    (hsami_ruissellement_surface 1 (fun i => if i = 10 then 1 else 10) 0 2 3
        .hsami .hsami).1
      + (hsami_ruissellement_surface 1 (fun i => if i = 10 then 1 else 10) 0 2 3
        .hsami .hsami).2 = 3 :=
  (ruissellement_somme 1 (fun i => if i = 10 then 1 else 10) 0 2 3 .hsami .hsami
    (by norm_num) (by norm_num)).1

/-- C2 counterexample: with the wetland module active, a base-flow
discharge q[0] = 1 m³/s and ratio_qbase = 1/500 (the state's wetland
base-flow fraction), the claimed relation Qtotal ≈ Qbase/(1-ratio_qbase)
+ Qinter + Qsurf + Qreservoir + Qglace + Qmh fails by
q[0]·ratio_qbase = 0.002 m³/s, far above the 10⁻⁶ tolerance. -/
theorem qtotal_relation_contre_exemple :
    ¬ |(bilan_sorties_debits true ![1, 0, 0, 0, 0, 0] (1 / 500)).Qtotal
        - ((bilan_sorties_debits true ![1, 0, 0, 0, 0, 0] (1 / 500)).Qbase
            / (1 - 1 / 500)
          + (bilan_sorties_debits true ![1, 0, 0, 0, 0, 0] (1 / 500)).Qinter
          + (bilan_sorties_debits true ![1, 0, 0, 0, 0, 0] (1 / 500)).Qsurf
          + (bilan_sorties_debits true ![1, 0, 0, 0, 0, 0] (1 / 500)).Qreservoir
          + (bilan_sorties_debits true ![1, 0, 0, 0, 0, 0] (1 / 500)).Qglace
          + (bilan_sorties_debits true ![1, 0, 0, 0, 0, 0] (1 / 500)).Qmh)|
      < 1 / 1000000 := by
  norm_num [bilan_sorties_debits, Fin.sum_univ_six, abs]

/-- C2 amended: the exact decomposition of the total discharge is
Qtotal = Qbase + Qinter + Qsurf + Qreservoir + Qglace + Qmh (without the
division by 1 - ratio_qbase): Qbase is already the share
q[0]·(1 - ratio_qbase) and Qmh carries the complementary share
q[0]·ratio_qbase.  For steps without the wetland module the source keeps
ratio_qbase = 0 (it is initialised to 0 and written only by
hsami_mhumide) and q[5] = 0 (the wetland hydrograph column is never
fed), which the second disjunct records. -/
theorem qtotal_somme_composantes (m : Bool) (q : Fin 6 → ℚ) (rq : ℚ)
    (h : m = true ∨ (rq = 0 ∧ q 5 = 0)) :
    (bilan_sorties_debits m q rq).Qtotal
      = (bilan_sorties_debits m q rq).Qbase
        + (bilan_sorties_debits m q rq).Qinter
        + (bilan_sorties_debits m q rq).Qsurf
        + (bilan_sorties_debits m q rq).Qreservoir
        + (bilan_sorties_debits m q rq).Qglace
        + (bilan_sorties_debits m q rq).Qmh := by
  rcases h with h | ⟨h1, h2⟩
  · subst h
    simp only [bilan_sorties_debits, Fin.sum_univ_six, if_pos]
    ring
  · cases m
    · simp only [bilan_sorties_debits, Fin.sum_univ_six, Bool.false_eq_true,
        if_false, h1, h2]
      ring
    · simp only [bilan_sorties_debits, Fin.sum_univ_six, if_pos]
      ring

/-- Witness for the amended C2 at a wetland step: q = (1,2,3,4,5,6),
ratio_qbase = 1/2. -/
theorem qtotal_somme_composantes_temoin :
    (bilan_sorties_debits true ![1, 2, 3, 4, 5, 6] (1 / 2)).Qtotal
      = (bilan_sorties_debits true ![1, 2, 3, 4, 5, 6] (1 / 2)).Qbase
        + (bilan_sorties_debits true ![1, 2, 3, 4, 5, 6] (1 / 2)).Qinter
        + (bilan_sorties_debits true ![1, 2, 3, 4, 5, 6] (1 / 2)).Qsurf
        + (bilan_sorties_debits true ![1, 2, 3, 4, 5, 6] (1 / 2)).Qreservoir
        + (bilan_sorties_debits true ![1, 2, 3, 4, 5, 6] (1 / 2)).Qglace
        + (bilan_sorties_debits true ![1, 2, 3, 4, 5, 6] (1 / 2)).Qmh :=
  qtotal_somme_composantes true ![1, 2, 3, 4, 5, 6] (1 / 2) (Or.inl rfl)

/-- C4: after every invocation of hsami_glace, in each of its three
branches (no reservoir, fixed reservoir surface, full inner model) and
for every inner-model output, the updated state satisfies
ratio_bassin + ratio_reservoir = 1 exactly. -/
theorem ratios_somme_un (superficie : ℚ × ℚ) (etats : EtatGlace)
    (b : BrancheGlace) :
    ((hsami_glace superficie etats b).2.2).ratio_bassin
      + ((hsami_glace superficie etats b).2.2).ratio_reservoir = 1 := by
  cases b with
  | interne r =>
    simp only [hsami_glace, depot_restitution]
    split_ifs <;> simp
  | surface_fixe =>
    simp only [hsami_glace]
    ring
  | sans_reservoir =>
    simp only [hsami_glace]
    ring

/-- C3 counterexample: growing the shore-ice area from 0 to 2 km² with a
floating-ice thickness of 1 cm deposits nothing at index 2, although the
claim requires every index of the integer interval (0, 2] — hence index
2 — to receive the deposit 1·0.916.  The Python slice
eeg[prev+1 : new] excludes its upper bound. -/
theorem depot_indices_contre_exemple :
    ¬ (∀ i, 0 + 1 ≤ i → i ≤ 2 →
        ((hsami_glace (100, 10) (⟨fun _ => 0, 0, 0, 0, 1, 1, 0⟩ : EtatGlace)
            (.interne ⟨0, 2, 10, 10, 1 / 100⟩)).2.2).eeg i
          = 1 / 100 * 100 * densite_glace) := by
  intro h
  have h2 := h 2 (by norm_num) (by norm_num)
  norm_num [hsami_glace, depot_restitution, densite_glace] at h2

/-- C3 amended: when the shore-ice area grows from prev to new, the
deposit (thickness in cm times 0.916) is written exactly to the eeg
indices of the half-open interval [prev+1, new) — the Python slice
eeg[prev+1 : new] — and glace_vers_reservoir is minus the sum of the
written values; when it shrinks, exactly the indices of [new+1, prev)
are summed into glace_vers_reservoir and zeroed; every other index, and
the whole vector when the area is unchanged, is left as it was. -/
theorem depot_restitution_indices (superficie : ℚ × ℚ) (etats : EtatGlace)
    (r : ResultatInterne) :
    (r.superficie_glace_0 < r.superficie_glace_1 →
      (∀ i, r.superficie_glace_0 + 1 ≤ i → i < r.superficie_glace_1 →
          ((hsami_glace superficie etats (.interne r)).2.2).eeg i
            = r.epaisseur_glace * 100 * densite_glace)
      ∧ (∀ i, i < r.superficie_glace_0 + 1 ∨ r.superficie_glace_1 ≤ i →
          ((hsami_glace superficie etats (.interne r)).2.2).eeg i = etats.eeg i)
      ∧ (hsami_glace superficie etats (.interne r)).1
          = -((r.superficie_glace_1 - (r.superficie_glace_0 + 1) : ℕ) : ℚ)
            * (r.epaisseur_glace * 100 * densite_glace))
    ∧ (r.superficie_glace_1 < r.superficie_glace_0 →
      (∀ i, r.superficie_glace_1 + 1 ≤ i → i < r.superficie_glace_0 →
          ((hsami_glace superficie etats (.interne r)).2.2).eeg i = 0)
      ∧ (∀ i, i < r.superficie_glace_1 + 1 ∨ r.superficie_glace_0 ≤ i →
          ((hsami_glace superficie etats (.interne r)).2.2).eeg i = etats.eeg i)
      ∧ (hsami_glace superficie etats (.interne r)).1
          = ∑ i ∈ Finset.Ico (r.superficie_glace_1 + 1) r.superficie_glace_0,
              etats.eeg i)
    ∧ (r.superficie_glace_0 = r.superficie_glace_1 →
      ((hsami_glace superficie etats (.interne r)).2.2).eeg = etats.eeg
      ∧ (hsami_glace superficie etats (.interne r)).1 = 0) := by
  refine ⟨fun hlt => ?_, fun hlt => ?_, fun heq => ?_⟩
  · refine ⟨fun i h1 h2 => ?_, fun i hout => ?_, ?_⟩
    · simp only [hsami_glace, depot_restitution, if_pos hlt]
      rw [if_pos ⟨h1, h2⟩]
    · simp only [hsami_glace, depot_restitution, if_pos hlt]
      rw [if_neg]
      rcases hout with hout | hout
      · exact fun hc => absurd hc.1 (by omega)
      · exact fun hc => absurd hc.2 (by omega)
    · simp only [hsami_glace, depot_restitution, if_pos hlt]
      rw [Finset.sum_congr rfl
        (fun i hi => if_pos (Finset.mem_Ico.mp hi))]
      rw [Finset.sum_const, Nat.card_Ico, nsmul_eq_mul]
      ring
  · have hnlt : ¬ r.superficie_glace_0 < r.superficie_glace_1 := by omega
    refine ⟨fun i h1 h2 => ?_, fun i hout => ?_, ?_⟩
    · simp only [hsami_glace, depot_restitution, if_neg hnlt, if_pos hlt]
      rw [if_pos ⟨h1, h2⟩]
    · simp only [hsami_glace, depot_restitution, if_neg hnlt, if_pos hlt]
      rw [if_neg]
      rcases hout with hout | hout
      · exact fun hc => absurd hc.1 (by omega)
      · exact fun hc => absurd hc.2 (by omega)
    · simp only [hsami_glace, depot_restitution, if_neg hnlt, if_pos hlt]
  · have hn1 : ¬ r.superficie_glace_0 < r.superficie_glace_1 := by omega
    have hn2 : ¬ r.superficie_glace_1 < r.superficie_glace_0 := by omega
    constructor
    · simp only [hsami_glace, depot_restitution, if_neg hn1, if_neg hn2]
    · simp only [hsami_glace, depot_restitution, if_neg hn1, if_neg hn2]

/-- Witness for the amended C3: growing the area from 0 to 2 km² with
thickness 1 cm writes the deposit 0.916 at index 1 (the only index of
[1, 2)). -/
theorem depot_restitution_indices_temoin :
    ((hsami_glace (100, 10) (⟨fun _ => 0, 0, 0, 0, 1, 1, 0⟩ : EtatGlace)
        (.interne ⟨0, 2, 10, 10, 1 / 100⟩)).2.2).eeg 1
      = 1 / 100 * 100 * densite_glace :=
  ((depot_restitution_indices (100, 10) (⟨fun _ => 0, 0, 0, 0, 1, 1, 0⟩ : EtatGlace)
      ⟨0, 2, 10, 10, 1 / 100⟩).1 (by norm_num)).1 1 (by norm_num) (by norm_num)

/-- Helper: the per-row preprocessing is the identity on rows whose first
two entries are already ordered. -/
theorem pretraitement_meteo_ordonnee (l : List ℚ) (h : meteo_ordonnee l) :
    pretraitement_meteo l = l := by
  match l with
  | [] => rfl
  | [t0] => rfl
  | t0 :: t1 :: reste =>
    have hle : t0 ≤ t1 := h
    simp only [pretraitement_meteo, if_neg (not_lt.mpr hle)]

/-- Helper: mapping the per-row preprocessing over a list of ordered rows
is the identity. -/
theorem map_pretraitement_ordonnee (L : List (List ℚ))
    (h : ∀ l ∈ L, meteo_ordonnee l) : L.map pretraitement_meteo = L := by
  induction L with
  | nil => rfl
  | cons a t ih =>
    simp only [List.map_cons]
    rw [pretraitement_meteo_ordonnee a (h a (by simp)),
      ih (fun l hl => h l (by simp [hl]))]

/-- Helper: set_default_module writes nothing on a present key. -/
theorem set_default_module_present {α : Type} (valeur : Option α) (defaut : α)
    (h : valeur.isSome = true) : set_default_module valeur defaut = valeur := by
  cases valeur with
  | none => simp at h
  | some v => rfl

/-- Helper: modules_par_defaut is the identity on complete module
records. -/
theorem modules_par_defaut_complets (m : ModulesProjet)
    (h : modules_complets m) : modules_par_defaut m = m := by
  obtain ⟨h1, h2, h3, h4, h5, h6, h7, h8, h9, h10⟩ := h
  simp only [modules_par_defaut,
    set_default_module_present _ _ h1, set_default_module_present _ _ h2,
    set_default_module_present _ _ h3, set_default_module_present _ _ h4,
    set_default_module_present _ _ h5, set_default_module_present _ _ h6,
    set_default_module_present _ _ h7, set_default_module_present _ _ h8,
    set_default_module_present _ _ h9, set_default_module_present _ _ h10]

/-- C5 counterexample: a valid project with superficie = [10] (length 1
is allowed by the input schema), a meteorology row with tmin > tmax
(silently swapped per the boundary rules) and a complete modules record
is mutated by the run: hsami2 appends 0 to projet['superficie'] in place
and the driver swaps the shared meteorology row in place, so fields the
claim names differ before and after the simulation. -/
theorem projet_mute_contre_exemple :
    projet_apres_hsami2
        ⟨[10], [[5, 3, 1, 0]], [[3, 5, 1, 0]], 47,
          ⟨some "hsami", some "hsami", some "hsami", some "hsami", some "hsami",
            some "hsami", some "hsami", some 0, some 0, some .zero⟩⟩
      ≠ (⟨[10], [[5, 3, 1, 0]], [[3, 5, 1, 0]], 47,
          ⟨some "hsami", some "hsami", some "hsami", some "hsami", some "hsami",
            some "hsami", some "hsami", some 0, some 0, some .zero⟩⟩ :
          ProjetChamps) := by
  decide

/-- C5 amended: the core writes into the project in exactly three
places: modules_par_defaut fills absent keys of projet['modules'] with
their defaults in place, hsami2 appends 0 to a length-1
projet['superficie'] in place, and the driver swaps in place the first
two entries of any meteorology row with tmin > tmax (the row object is
shared with projet['meteo']).  When every module key is present,
superficie already has two entries, and every meteorology row of both
series has tmin ≤ tmax, the project value — including the physiography,
whose latitude conversion happens on a copy — is identical before and
after the run. -/
theorem projet_preserve (p : ProjetChamps)
    (hs : p.superficie.length = 2)
    (hb : ∀ l ∈ p.meteo_bassin, meteo_ordonnee l)
    (hr : ∀ l ∈ p.meteo_reservoir, meteo_ordonnee l)
    (hm : modules_complets p.modules) :
    projet_apres_hsami2 p = p := by
  obtain ⟨s, mb, mr, lat, mo⟩ := p
  simp only [projet_apres_hsami2, superficie_entree] at *
  rw [if_neg (by omega), map_pretraitement_ordonnee mb hb,
    map_pretraitement_ordonnee mr hr, modules_par_defaut_complets mo hm]

/-- Witness for the amended C5: a two-entry superficie, ordered
meteorology rows and a complete modules record are preserved. -/
theorem projet_preserve_temoin :
    projet_apres_hsami2
        ⟨[10, 2], [[1, 2, 0, 0]], [[-3, 4, 1, 0]], 47,
          ⟨some "hsami", some "dj", some "hsami", some "hsami", some "hsami",
            some "3couches", some "mdj", some 1, some 0, some .stefan⟩⟩
      = (⟨[10, 2], [[1, 2, 0, 0]], [[-3, 4, 1, 0]], 47,
          ⟨some "hsami", some "dj", some "hsami", some "hsami", some "hsami",
            some "3couches", some "mdj", some 1, some 0, some .stefan⟩⟩ :
          ProjetChamps) :=
  projet_preserve
    ⟨[10, 2], [[1, 2, 0, 0]], [[-3, 4, 1, 0]], 47,
      ⟨some "hsami", some "dj", some "hsami", some "hsami", some "hsami",
        some "3couches", some "mdj", some 1, some 0, some .stefan⟩⟩
    (by rfl)
    (by
      intro l hl
      rcases List.mem_singleton.mp hl with rfl
      show (1 : ℚ) ≤ 2
      norm_num)
    (by
      intro l hl
      rcases List.mem_singleton.mp hl with rfl
      show (-3 : ℚ) ≤ 4
      norm_num)
    (by
      refine ⟨rfl, rfl, rfl, rfl, rfl, rfl, rfl, rfl, rfl, rfl⟩)

/-- C7: the two configuration errors are fatal and atomic.  With
modules['mhumide'] = 1 and physio['samax'] = 0, hsami2 raises before any
simulation step, and no state record escapes its construction; with an
invalid modules['glace_reservoir'], the driver raises during the ice
dispatch while the state carried by the propagating error is exactly the
input state (the driver only reads the state before this check). -/
theorem validation_configuration_atomique (msol : ModuleSol) (param : ℕ → ℚ)
    (samax : ℚ) (sup : ℚ × ℚ) (reservoir niveau een : Bool)
    (r : ResultatInterne) (etat : EtatGlace) (h : samax = 0) :
    hsami2_initialisation msol true param samax sup
        = Except.error
          "La superficie maximale du milieu humide equivalent est egale a 0."
    ∧ dispatch_glace .autre reservoir niveau een r sup etat
        = Except.error
          ("L option specifiee pour la modelisation de la glace de reservoir est invalide",
            etat) := by
  subst h
  exact ⟨by simp [hsami2_initialisation], rfl⟩

/-- Witness for C7 at a concrete configuration. -/
theorem validation_configuration_atomique_temoin :
    hsami2_initialisation .hsami true (fun _ => 0) 0 (100, 10)
        = Except.error
          "La superficie maximale du milieu humide equivalent est egale a 0."
    ∧ dispatch_glace .autre false false false ⟨0, 0, 0, 0, 0⟩ (100, 10)
          (⟨fun _ => 0, 0, 0, 0, 1, 1, 0⟩ : EtatGlace)
        = Except.error
          ("L option specifiee pour la modelisation de la glace de reservoir est invalide",
            (⟨fun _ => 0, 0, 0, 0, 1, 1, 0⟩ : EtatGlace)) :=
  validation_configuration_atomique .hsami (fun _ => 0) 0 (100, 10) false false
    false ⟨0, 0, 0, 0, 0⟩ (⟨fun _ => 0, 0, 0, 0, 1, 1, 0⟩ : EtatGlace) rfl

/-- C6 failing input: three-layer soil with scs_cn infiltration,
offre = 1 > demande = 0 (the branch that reaches line 331), curve number
param[23] = 100, nb_pas = 24, param[13] = 10, param[14] = 1/4,
param[17] = 12/5, layer thicknesses 10, field capacities 0.1, porosities
0.2, b = 1, ks = 1, state sol = [0, 1], nappe = 5, input
apport_vertical = [0, 0, 0, -1, 0].  The scs_cn runoff is 1, and the
apport[:] broadcast of line 331 writes it into every entry, so the
returned apport[3] and apport[4] are both 1 instead of the input values
-1 and 0 that the vertical-flow module must leave untouched. -/
theorem ecoulement_3couches_scs_cn_ecrase_apports :
    (ecoulement_3couches 24
        (fun i =>
          if i = 13 then 10 else if i = 14 then 1 / 4 else if i = 17 then 12 / 5
          else if i = 23 then 100 else if i = 39 then 10 else if i = 40 then 10
          else if i = 42 then 1 / 10 else if i = 43 then 1 / 10
          else if i = 44 then 1 / 5 else if i = 45 then 1 / 5 else 0)
        0 0 1 1 ⟨0, 1, 5, 0, 0⟩ 1 0 .scs_cn .hsami 0 ⟨0, 0, 0, -1, 0⟩ (0, 0)
        1).apport.a3 = 1
    ∧ (ecoulement_3couches 24
        (fun i =>
          if i = 13 then 10 else if i = 14 then 1 / 4 else if i = 17 then 12 / 5
          else if i = 23 then 100 else if i = 39 then 10 else if i = 40 then 10
          else if i = 42 then 1 / 10 else if i = 43 then 1 / 10
          else if i = 44 then 1 / 5 else if i = 45 then 1 / 5 else 0)
        0 0 1 1 ⟨0, 1, 5, 0, 0⟩ 1 0 .scs_cn .hsami 0 ⟨0, 0, 0, -1, 0⟩ (0, 0)
        1).apport.a4 = 1 := by
  constructor <;>
    norm_num [ecoulement_3couches, scs_cn, percolation_pas,
      Function.iterate_one, min_def, max_def]

/-- C8: for every mode, forme and steps-per-day, and every hydrograph
length n = memoire·nb_pas ≥ 1 for which the weights
t^(mode·forme)·exp(-forme·t/nb_pas), t = 1..n, have nonzero sum, the
normalised unit hydrograph of hsami_hydrogramme sums to 1 exactly over
its time axis. -/
theorem hsami_hydrogramme_somme_un (mode forme pas_temps_par_jour : ℝ) (n : ℕ)
    (_hn : 1 ≤ n)
    (hS : ∑ j ∈ Finset.Icc 1 n, hydrogramme_poids mode forme pas_temps_par_jour j
      ≠ 0) :
    ∑ t ∈ Finset.Icc 1 n, hsami_hydrogramme mode forme pas_temps_par_jour n t
      = 1 := by
  unfold hsami_hydrogramme
  rw [← Finset.sum_div, div_self hS]

/-- Witness for C8 at mode = 0, forme = 0, one step per day, n = 2: each
weight is 1 and the two normalised values sum to 1. -/
theorem hsami_hydrogramme_somme_un_temoin :
    ∑ t ∈ Finset.Icc 1 2, hsami_hydrogramme 0 0 1 2 t = 1 := by
  apply hsami_hydrogramme_somme_un 0 0 1 2 (by norm_num)
  have hchaque : ∀ j ∈ Finset.Icc 1 2, hydrogramme_poids 0 0 1 j = 1 := by
    intro j hj
    simp [hydrogramme_poids]
  rw [Finset.sum_congr rfl hchaque]
  simp

end HsamiPlus
